import Mathlib

set_option maxHeartbeats 1000000

namespace ResumeChecker

/-!
Shallow embedding of the two client scripts of the resume-checker website:
the interactive mascot system in src/static/mascot.js and the theme-switcher
script. DOM reads are modelled as explicit record fields; each setTimeout
callback is modelled as an explicit state-transition function, and scheduled
timers are recorded as booleans or timer-id lists in the returned state.
-/

/-- The four mascot expressions (the keys of the expressions image map). -/
inductive Expression
  | standing
  | happy
  | thinking
  | sad
deriving DecidableEq, Repr

/-- Mutable module state of the mascot script, together with the two DOM cells
it writes: the bubble caption textContent and its inline style color.
The image src is determined by currentExpression via the expressions map,
so it is not duplicated here. An empty bubbleColor models the cleared
inline style (default color). -/
structure MascotState where
  currentExpression : Expression
  isLocked : Bool
  bubbleText : String
  bubbleColor : String
deriving DecidableEq, Repr

/-- The default caption message. -/
def defaultMessage : String := "Hi! Hover over different sections to see me react!"

/-- State at the end of init, before the 500ms startup callback runs:
standing, unlocked, default caption, no inline caption color. -/
def initialState : MascotState :=
  { currentExpression := .standing
    isLocked := false
    bubbleText := defaultMessage
    bubbleColor := "" }

/-- changeMascotExpression from mascot.js: early-returns when locked;
otherwise swaps the expression when it differs (the 150ms fade is collapsed
into the atomic update) and sets the caption when the message is truthy
(a nonempty string). -/
def changeMascotExpression (s : MascotState) (expression : Expression) (message : String) :
    MascotState :=
  if s.isLocked then s
  else
    let s1 := if expression ≠ s.currentExpression then
        { s with currentExpression := expression }
      else s
    if message ≠ "" then { s1 with bubbleText := message } else s1

/-- resetMascot from mascot.js: no-op when locked, otherwise transition to
standing with the default message. -/
def resetMascot (s : MascotState) : MascotState :=
  if s.isLocked then s else changeMascotExpression s .standing defaultMessage

/-- Value of a hexadecimal digit character, if it is one. -/
def hexDigitVal (c : Char) : Option Nat :=
  if '0' ≤ c ∧ c ≤ '9' then some (c.toNat - Char.toNat '0')
  else if 'a' ≤ c ∧ c ≤ 'f' then some (c.toNat - Char.toNat 'a' + 10)
  else if 'A' ≤ c ∧ c ≤ 'F' then some (c.toNat - Char.toNat 'A' + 10)
  else none

/-- Value of a decimal digit character, if it is one. -/
def decDigitVal (c : Char) : Option Nat :=
  if '0' ≤ c ∧ c ≤ '9' then some (c.toNat - Char.toNat '0') else none

/-- Accumulate the longest prefix of radix digits; none when that prefix is
empty (the NaN case of parseInt). -/
def digitsValue (f : Char → Option Nat) (base : Nat) (cs : List Char) : Option Nat :=
  let ds := cs.takeWhile (fun c => (f c).isSome)
  if ds.isEmpty then none
  else some (ds.foldl (fun a c => a * base + ((f c).getD 0)) 0)

/-- JavaScript parseInt with the radix argument omitted, as used by
checkScores: strip leading whitespace, read an optional sign, switch to
base 16 after a 0x or 0X prefix, read the longest digit prefix ignoring any
trailing characters; none models NaN (no digits). -/
def parseIntJS (s : String) : Option Int :=
  let cs := s.data.dropWhile (fun c => c.isWhitespace)
  let sp : Int × List Char :=
    match cs with
    | '-' :: rest => (-1, rest)
    | '+' :: rest => (1, rest)
    | _ => (1, cs)
  let bp : Nat × List Char :=
    match sp.2 with
    | '0' :: 'x' :: rest => (16, rest)
    | '0' :: 'X' :: rest => (16, rest)
    | _ => (10, sp.2)
  (digitsValue (if bp.1 == 16 then hexDigitVal else decDigitVal) bp.1 bp.2).map
    (fun n => sp.1 * (n : Int))

/-- JavaScript comparison x < n where x may be NaN (none): any comparison
with NaN is false. -/
def jsLt (x : Option Int) (n : Int) : Bool :=
  match x with
  | some v => decide (v < n)
  | none => false

/-- The page state checkScores reads from the DOM: the textContent of the
three score value elements when present, and the children count of the
missing-skills element when present. -/
structure Page where
  atsText : Option String
  jobMatchText : Option String
  grammarText : Option String
  missingSkillsChildren : Option Nat
deriving DecidableEq, Repr

def msgAts : String := "Oh no... your ATS score is low. Let's improve it! 😢"

def msgJobMatch : String := "Hmm... you're missing many required skills... 😔"

def msgGrammar : String := "Let's fix these grammar issues together! 📝"

def msgMissing : String := "You need to add these skills to match better... 🤔"

def happyMessage : String := "Great job! Your scores look amazing! 🎉"

def alertColor : String := "#dc2626"

/-- The lowScore / sadMessage computation of checkScores, transcribed from
the sequential if statements of mascot.js lines 93-125. -/
def scanScores (p : Page) : Bool × String :=
  let acc : Bool × String := (false, "")
  let acc : Bool × String :=
    match p.atsText with
    | some t => if jsLt (parseIntJS t) 60 then (true, msgAts) else acc
    | none => acc
  let acc : Bool × String :=
    if !acc.1 then
      match p.jobMatchText with
      | some t => if jsLt (parseIntJS t) 50 then (true, msgJobMatch) else acc
      | none => acc
    else acc
  let acc : Bool × String :=
    if !acc.1 then
      match p.grammarText with
      | some t => if jsLt (parseIntJS t) 70 then (true, msgGrammar) else acc
      | none => acc
    else acc
  let acc : Bool × String :=
    if !acc.1 then
      match p.missingSkillsChildren with
      | some n => if decide (5 < n) then (true, msgMissing) else acc
      | none => acc
    else acc
  acc

/-- First low-score predicate: the ATS element is present and its parsed
value is below 60. -/
def ruleLowAts (p : Page) : Bool :=
  match p.atsText with
  | some t => jsLt (parseIntJS t) 60
  | none => false

/-- Second low-score predicate: the job-match element is present and its
parsed value is below 50. -/
def ruleLowJobMatch (p : Page) : Bool :=
  match p.jobMatchText with
  | some t => jsLt (parseIntJS t) 50
  | none => false

/-- Third low-score predicate: the grammar element is present and its parsed
value is below 70. -/
def ruleLowGrammar (p : Page) : Bool :=
  match p.grammarText with
  | some t => jsLt (parseIntJS t) 70
  | none => false

/-- Fourth low-score predicate: the missing-skills element is present and has
more than 5 children. -/
def ruleManyMissing (p : Page) : Bool :=
  match p.missingSkillsChildren with
  | some n => decide (5 < n)
  | none => false

/-- Modelled from the spec wording of the priority policy: the score rules as
an ordered list of predicate and message pairs, in the stated priority
order, to be compared against the if chain of the source. -/
def scoreRuleList : List ((Page → Bool) × String) :=
  [ (ruleLowAts, msgAts)
  , (ruleLowJobMatch, msgJobMatch)
  , (ruleLowGrammar, msgGrammar)
  , (ruleManyMissing, msgMissing) ]

/-- First-match-wins evaluation of the ordered rule list: the message of the
first rule whose predicate holds, none when no rule matches. -/
def firstMatchOutcome (p : Page) : Option String :=
  (scoreRuleList.find? (fun r => r.1 p)).map Prod.snd

/-- Page with only the ATS score element present, reading 45. -/
def pAts45 : Page := ⟨some "45", none, none, none⟩

/-- Page with only the grammar score element present, reading 95. -/
def pGrammarOnly : Page := ⟨none, none, some "95", none⟩

/-- Result of one run of checkScores: the new mascot/caption state, whether
the 5000ms unlock timer was scheduled, and whether the 3000ms resetMascot
timer was scheduled. -/
structure CheckResult where
  state : MascotState
  unlockScheduled : Bool
  revertScheduled : Bool
deriving DecidableEq, Repr

/-- checkScores from mascot.js lines 88-141: on a low score it sets isLocked,
then calls changeMascotExpression (which at that point is already locked),
then recolors the caption and schedules the 5000ms unlock; otherwise, when
the ATS or job-match element is present, it shows the happy message and
schedules the 3000ms revert. -/
def checkScores (p : Page) (s : MascotState) : CheckResult :=
  let scan := scanScores p
  if scan.1 then
    let s1 := { s with isLocked := true }
    let s2 := changeMascotExpression s1 .sad scan.2
    { state := { s2 with bubbleColor := alertColor }
      unlockScheduled := true
      revertScheduled := false }
  else if p.atsText.isSome || p.jobMatchText.isSome then
    { state := changeMascotExpression s .happy happyMessage
      unlockScheduled := false
      revertScheduled := true }
  else
    { state := s, unlockScheduled := false, revertScheduled := false }

/-- The 5000ms callback scheduled by the low-score branch: clear the lock and
the inline caption color. -/
def unlockCallback (s : MascotState) : MascotState :=
  { s with isLocked := false, bubbleColor := "" }

/-- A hover rule: the expression and message bound to one selector. -/
structure HoverRule where
  expression : Expression
  message : String
deriving DecidableEq, Repr

/-- The expressionMap of mascot.js, in source (insertion) order. -/
def expressionMap : List (String × HoverRule) :=
  [ ("button[type=\"submit\"]", ⟨.happy, "Ready? Let's do this! 💪"⟩)
  , (".btn-primary", ⟨.happy, "Click here to start the magic! ✨"⟩)
  , (".btn-success", ⟨.happy, "Great choice! Let's go! 🎉"⟩)
  , (".score-card", ⟨.happy, "Let's see your amazing results! 📊"⟩)
  , (".strength-item", ⟨.happy, "Wow! This is one of your strengths! 💪"⟩)
  , (".skill-tag", ⟨.happy, "You have this skill! Awesome! 🌟"⟩)
  , ("input[type=\"text\"]", ⟨.thinking, "Hmm... what should we enter here? 🤔"⟩)
  , ("input[type=\"email\"]", ⟨.thinking, "Your email address goes here! 📧"⟩)
  , ("input[type=\"file\"]", ⟨.thinking, "Select your resume file here! 📄"⟩)
  , ("select", ⟨.thinking, "Let me think... what role are you targeting? 🎯"⟩)
  , ("textarea", ⟨.thinking, "Time to write something thoughtful! ✍️"⟩)
  , (".file-label", ⟨.thinking, "Pick a resume to analyze! 📂"⟩)
  , (".upload-card", ⟨.thinking, "Upload your resume and let's see! 🔍"⟩)
  , (".feedback-section", ⟨.thinking, "Let me think about these suggestions... 💭"⟩)
  , (".suggestion-item", ⟨.thinking, "This is worth considering! 💡"⟩)
  , ("a", ⟨.standing, "Want to go there? I'll come with you! 👋"⟩)
  , (".nav-link", ⟨.standing, "Let's navigate together! 🧭"⟩)
  , (".feature-item", ⟨.standing, "Check out this cool feature! ⭐"⟩)
  , (".auth-card", ⟨.standing, "Welcome! Let's get you started! 👋"⟩)
  , (".missing-skills", ⟨.sad, "These skills are missing... let's add them! 😢"⟩)
  , (".error", ⟨.sad, "Oh no! Something went wrong... 😔"⟩)
  , ("input[type=\"password\"]", ⟨.thinking, "Keep your secret safe! 🔐"⟩) ]

/-- The selector keys of the registry, in iteration order. -/
def registrySelectors : List String := expressionMap.map Prod.fst

/-- The rule stored for a selector key. -/
def lookupRule (sel : String) : Option HoverRule :=
  (expressionMap.find? (fun q => q.1 == sel)).map Prod.snd

/-- One DOM element as setupHoverDetection sees it: the registry selectors
it matches (a property of the document), whether it carries the
data-mascot-listener attribute, and the selectors whose mouseenter and
mouseleave listener pair has been attached to it, in attachment order. -/
structure Elem where
  sels : List String
  marked : Bool
  bound : List String
deriving DecidableEq, Repr

/-- Body of the inner forEach for one selector and one element: skip elements
that do not match or already carry the marker attribute; otherwise set the
marker and attach the listener pair closing over this selector. -/
def bindElem (sel : String) (e : Elem) : Elem :=
  if e.sels.contains sel then
    if e.marked then e
    else { e with marked := true, bound := e.bound ++ [sel] }
  else e

/-- Effect of one full setupHoverDetection pass on a single element:
fold of bindElem over the registry selectors in order. -/
def setupElem (e : Elem) : Elem :=
  registrySelectors.foldl (fun e sel => bindElem sel e) e

/-- setupHoverDetection from mascot.js: iterate the registry selectors in
order, and for each one update every element of the document. -/
def setupHoverDetection (doc : List Elem) : List Elem :=
  registrySelectors.foldl (fun d sel => d.map (bindElem sel)) doc

/-- Delivering a mouseenter event to an element: each attached listener fires
in attachment order, applying its captured selector rule (the clearTimeout
call the handler starts with touches only the timer state, modelled
separately). -/
def hoverEnter (e : Elem) (s : MascotState) : MascotState :=
  e.bound.foldl
    (fun s sel =>
      match lookupRule sel with
      | some r => changeMascotExpression s r.expression r.message
      | none => s)
    s

/-- Timer state of the hover handlers: the handle stored in the hoverTimeout
variable (kept even after its timer fired or was cleared, as in the script),
the ids of reset timers that are scheduled and have neither fired nor been
cleared, and a counter supplying fresh ids. -/
structure HoverSys where
  hoverTimeout : Option Nat
  pending : List Nat
  nextId : Nat
deriving DecidableEq, Repr

/-- clearTimeout(hoverTimeout): cancel the timer with the stored handle if it
is still pending; a no-op on an already-fired, already-cleared or null
handle. -/
def clearStoredTimeout (s : HoverSys) : HoverSys :=
  match s.hoverTimeout with
  | some h => { s with pending := s.pending.erase h }
  | none => s

/-- Events touching the reset timer: a mouseenter on a bound element, a
mouseleave on a bound element, and the firing of a scheduled timer id. -/
inductive HoverEvent
  | enter
  | leave
  | fire (id : Nat)
deriving DecidableEq, Repr

/-- Timer effect of the hover handlers of mascot.js lines 158-170: mouseenter
first clears the stored timer; mouseleave first clears the stored timer and
then schedules a fresh resetMascot timer, storing its handle; a timer that
is no longer pending does not run. -/
def stepHover (s : HoverSys) : HoverEvent → HoverSys
  | .enter => clearStoredTimeout s
  | .leave =>
      let s1 := clearStoredTimeout s
      { hoverTimeout := some s1.nextId
        pending := s1.pending ++ [s1.nextId]
        nextId := s1.nextId + 1 }
  | .fire id =>
      if s.pending.contains id then { s with pending := s.pending.erase id } else s

/-- Run a sequence of hover events. -/
def runHover (s : HoverSys) (evs : List HoverEvent) : HoverSys :=
  evs.foldl stepHover s

/-- Timer state at script start: hoverTimeout is null, nothing pending. -/
def hoverInit : HoverSys := ⟨none, [], 0⟩

/-- Invariant: either no reset timer is pending, or exactly the one whose
handle is stored in hoverTimeout. -/
def HoverInv (s : HoverSys) : Prop :=
  s.pending = [] ∨ ∃ h, s.hoverTimeout = some h ∧ s.pending = [h]

/-! Theme switcher embedding. -/

/-- The five catalog theme ids, in insertion order of the themes object. -/
def themeKeys : List String :=
  ["dark-purple", "ocean", "sunset", "forest", "cyberpunk"]

/-- One picker entry: its data-theme value and whether it carries the active
class. -/
structure ThemeOption where
  dataTheme : String
  active : Bool
deriving DecidableEq, Repr

/-- The DOM cells the theme script writes: the data-theme attribute of the
document root and the picker entries (the 300ms transition overlay is a
purely visual pulse and carries no persistent state). -/
structure ThemeDom where
  rootDataTheme : Option String
  options : List ThemeOption
deriving DecidableEq, Repr

/-- The localStorage slice the script uses: the value under the theme key. -/
structure Storage where
  theme : Option String
deriving DecidableEq, Repr

/-- getSavedTheme: the stored value, or dark-purple when absent. -/
def getSavedTheme (st : Storage) : String :=
  st.theme.getD "dark-purple"

/-- applyTheme(themeName): set the root data-theme attribute, persist the
name, and on every picker entry remove the active class and re-add it
exactly when its data-theme equals the name. No validation happens. -/
def applyTheme (themeName : String) (dom : ThemeDom) (st : Storage) :
    ThemeDom × Storage :=
  ({ rootDataTheme := some themeName
     options := dom.options.map (fun o => { o with active := o.dataTheme == themeName }) },
   { st with theme := some themeName })

/-- The DOMContentLoaded handler on a fresh page whose theme-selector element
is present and empty: read the saved theme, apply it (the picker is still
empty at that point), then create one picker entry per catalog theme,
active exactly on the saved key. -/
def initThemes (st : Storage) : ThemeDom × Storage :=
  let saved := getSavedTheme st
  let r := applyTheme saved ⟨none, []⟩ st
  ({ r.1 with options := r.1.options ++ themeKeys.map (fun k => ⟨k, k == saved⟩) }, r.2)

/-! Theorems. -/

/-- The sequential lowScore computation equals a four-way nested conditional
over the rule predicates. -/
theorem scanScores_eq_rules (p : Page) :
    scanScores p =
      if ruleLowAts p then (true, msgAts)
      else if ruleLowJobMatch p then (true, msgJobMatch)
      else if ruleLowGrammar p then (true, msgGrammar)
      else if ruleManyMissing p then (true, msgMissing)
      else (false, "") := by
  rcases p with ⟨a, j, g, m⟩
  simp only [scanScores, ruleLowAts, ruleLowJobMatch, ruleLowGrammar, ruleManyMissing]
  cases a <;> cases j <;> cases g <;> cases m <;> simp <;>
    repeat first
    | rfl
    | (split <;> simp_all)

/-- Claim C1: with the ATS score element reading 45, the startup score check
locks the mascot and recolors the caption to the alert color, but because
isLocked is set before changeMascotExpression runs, the expression stays
standing and the caption keeps the default message instead of showing the
sad state the specification describes; the 5000ms unlock callback does
clear the lock and the caption color. -/
theorem ats45_locks_without_sad_display :
    scanScores pAts45 = (true, msgAts) ∧
    checkScores pAts45 initialState =
      { state := { initialState with isLocked := true, bubbleColor := alertColor }
        unlockScheduled := true
        revertScheduled := false } ∧
    (checkScores pAts45 initialState).state.currentExpression = Expression.standing ∧
    (checkScores pAts45 initialState).state.bubbleText = defaultMessage ∧
    unlockCallback (checkScores pAts45 initialState).state = initialState := by
  refine ⟨by decide, by decide, by decide, by decide, by decide⟩

/-- Claim C2: while the lock flag is true, the hover transition function and
the reset function leave the whole mascot state unchanged, and the 5-second
unlock callback clears the lock flag and resets the caption color to its
default. -/
theorem locked_hover_is_noop (s : MascotState) (e : Expression) (m : String)
    (h : s.isLocked = true) :
    changeMascotExpression s e m = s ∧
    resetMascot s = s ∧
    (unlockCallback s).isLocked = false ∧
    (unlockCallback s).bubbleColor = "" := by
  refine ⟨?_, ?_, rfl, rfl⟩ <;> simp [changeMascotExpression, resetMascot, h]

/-- Witness for C2 at a concrete locked state. -/
theorem locked_hover_is_noop_witness :
    changeMascotExpression { initialState with isLocked := true } Expression.happy "hello" =
      { initialState with isLocked := true } ∧
    resetMascot { initialState with isLocked := true } = { initialState with isLocked := true } ∧
    (unlockCallback { initialState with isLocked := true }).isLocked = false ∧
    (unlockCallback { initialState with isLocked := true }).bubbleColor = "" :=
  locked_hover_is_noop { initialState with isLocked := true } Expression.happy "hello" rfl

/-- Claim C3: the score check selects its outcome first-match-wins over the
ordered rule list ATS below 60, job-match below 50, grammar below 70,
missing-skill count above 5: the lowScore flag holds exactly when some rule
matches and the sad message is the first matching rule's message. -/
theorem scanScores_first_match_wins (p : Page) :
    (if (scanScores p).1 then some (scanScores p).2 else none) = firstMatchOutcome p := by
  rw [scanScores_eq_rules]
  simp only [firstMatchOutcome, scoreRuleList, List.find?]
  by_cases h1 : ruleLowAts p <;> by_cases h2 : ruleLowJobMatch p <;>
    by_cases h3 : ruleLowGrammar p <;> by_cases h4 : ruleManyMissing p <;>
    simp [h1, h2, h3, h4]

/-- Counterexample to claim C4: on a page where only the grammar score
element is present (reading 95, so no low-score rule matches), the score
check performs no transition at all: the state is unchanged and no revert
timer is scheduled, because the happy branch tests only the ATS and
job-match elements. -/
theorem grammar_only_no_happy_transition :
    scanScores pGrammarOnly = (false, "") ∧
    pGrammarOnly.grammarText.isSome = true ∧
    checkScores pGrammarOnly initialState =
      { state := initialState, unlockScheduled := false, revertScheduled := false } := by
  refine ⟨by decide, by decide, by decide⟩

/-- Helper: the happy branch of checkScores, shown for any unlocked state on
a page where no rule matches and the ATS or job-match element is present. -/
theorem happy_branch_aux (p : Page) (s : MascotState)
    (hs : s.isLocked = false) (hscan : (scanScores p).1 = false)
    (hp : (p.atsText.isSome || p.jobMatchText.isSome) = true) :
    (checkScores p s).state.currentExpression = Expression.happy ∧
    (checkScores p s).state.bubbleText = happyMessage ∧
    (checkScores p s).revertScheduled = true ∧
    (checkScores p s).unlockScheduled = false := by
  have hmsg : ¬(happyMessage = "") := by decide
  by_cases he : Expression.happy = s.currentExpression <;>
    simp [checkScores, hscan, hp, changeMascotExpression, hs, hmsg, he]

/-- Claim C4 as amended: when no low-score rule matches, the mascot is
unlocked, and the ATS or the job-match element is present (grammar alone
does not count), the score check shows the happy expression with the
congratulatory message and schedules the 3-second revert. -/
theorem happy_branch_on_good_scores (p : Page) (s : MascotState)
    (hs : s.isLocked = false) (hscan : (scanScores p).1 = false)
    (hp : (p.atsText.isSome || p.jobMatchText.isSome) = true) :
    (checkScores p s).state.currentExpression = Expression.happy ∧
    (checkScores p s).state.bubbleText = happyMessage ∧
    (checkScores p s).revertScheduled = true ∧
    (checkScores p s).unlockScheduled = false :=
  happy_branch_aux p s hs hscan hp

/-- Witness for the amended C4 on a page with a passing ATS score of 80. -/
theorem happy_branch_on_good_scores_witness :
    (checkScores ⟨some "80", none, none, none⟩ initialState).state.currentExpression =
      Expression.happy ∧
    (checkScores ⟨some "80", none, none, none⟩ initialState).state.bubbleText = happyMessage ∧
    (checkScores ⟨some "80", none, none, none⟩ initialState).revertScheduled = true ∧
    (checkScores ⟨some "80", none, none, none⟩ initialState).unlockScheduled = false :=
  happy_branch_on_good_scores ⟨some "80", none, none, none⟩ initialState rfl (by decide)
    (by decide)

/-- Claim C10: a score text on which parseInt yields NaN never satisfies the
corresponding low-score rule, so a present but non-numeric score counts as
passing; with such an ATS text alone on the page, the check still takes the
congratulatory happy branch. -/
theorem nan_score_counts_as_passing (t : String) (s : MascotState)
    (ht : parseIntJS t = none) (hs : s.isLocked = false) :
    (∀ p : Page, p.atsText = some t → ruleLowAts p = false) ∧
    (∀ p : Page, p.jobMatchText = some t → ruleLowJobMatch p = false) ∧
    (∀ p : Page, p.grammarText = some t → ruleLowGrammar p = false) ∧
    scanScores ⟨some t, none, none, none⟩ = (false, "") ∧
    (checkScores ⟨some t, none, none, none⟩ s).state.currentExpression = Expression.happy ∧
    (checkScores ⟨some t, none, none, none⟩ s).revertScheduled = true := by
  have hscan : scanScores ⟨some t, none, none, none⟩ = (false, "") := by
    simp [scanScores, ht, jsLt]
  refine ⟨?_, ?_, ?_, hscan, ?_, ?_⟩
  · intro p hp; simp [ruleLowAts, hp, ht, jsLt]
  · intro p hp; simp [ruleLowJobMatch, hp, ht, jsLt]
  · intro p hp; simp [ruleLowGrammar, hp, ht, jsLt]
  · exact (happy_branch_aux ⟨some t, none, none, none⟩ s hs
      (by rw [hscan]) (by simp)).1
  · exact (happy_branch_aux ⟨some t, none, none, none⟩ s hs
      (by rw [hscan]) (by simp)).2.2.1

/-- Witness for C10 with the non-numeric score text abc. -/
theorem nan_score_counts_as_passing_witness :
    scanScores ⟨some "abc", none, none, none⟩ = (false, "") ∧
    (checkScores ⟨some "abc", none, none, none⟩ initialState).state.currentExpression =
      Expression.happy :=
  ⟨(nan_score_counts_as_passing "abc" initialState (by decide) rfl).2.2.2.1,
   (nan_score_counts_as_passing "abc" initialState (by decide) rfl).2.2.2.2.1⟩

/-- Clearing the stored timeout never changes the stored handle. -/
theorem clearStoredTimeout_hoverTimeout (s : HoverSys) :
    (clearStoredTimeout s).hoverTimeout = s.hoverTimeout := by
  cases hh : s.hoverTimeout <;> simp [clearStoredTimeout, hh]

/-- Clearing the stored timeout never changes the id counter. -/
theorem clearStoredTimeout_nextId (s : HoverSys) :
    (clearStoredTimeout s).nextId = s.nextId := by
  cases hh : s.hoverTimeout <;> simp [clearStoredTimeout, hh]

/-- Under the invariant, clearTimeout(hoverTimeout) leaves no pending reset
timer. -/
theorem clearStoredTimeout_pending (s : HoverSys) (hs : HoverInv s) :
    (clearStoredTimeout s).pending = [] := by
  rcases hs with h | ⟨h, hht, hp⟩
  · cases hh : s.hoverTimeout <;> simp [clearStoredTimeout, hh, h]
  · simp [clearStoredTimeout, hht, hp]

/-- Each hover event preserves the invariant. -/
theorem hoverInv_step (s : HoverSys) (e : HoverEvent) (hs : HoverInv s) :
    HoverInv (stepHover s e) := by
  cases e with
  | enter => exact Or.inl (clearStoredTimeout_pending s hs)
  | leave =>
      right
      refine ⟨(clearStoredTimeout s).nextId, rfl, ?_⟩
      simp [stepHover, clearStoredTimeout_pending s hs]
  | fire id =>
      simp only [stepHover]
      split
      · rename_i hcon
        rcases hs with h | ⟨h, hht, hp⟩
        · left; simp [h]
        · left
          rw [hp] at hcon ⊢
          have hid : id = h := by simpa using hcon
          simp [hid]
      · exact hs

/-- The invariant holds after any run from any invariant state. -/
theorem hoverInv_run (evs : List HoverEvent) (s : HoverSys) (hs : HoverInv s) :
    HoverInv (runHover s evs) := by
  induction evs generalizing s with
  | nil => exact hs
  | cons e evs ih => exact ih (stepHover s e) (hoverInv_step s e hs)

/-- Claim C5: over every sequence of hover events from the initial timer
state, at most one reset timer is pending at any point; moreover a
hover-enter leaves no pending reset timer, so any reset scheduled by an
earlier hover-leave has been cleared and its firing after the enter is a
no-op. -/
theorem hover_reset_timer_discipline (evs : List HoverEvent) (id : Nat) :
    (runHover hoverInit evs).pending.length ≤ 1 ∧
    (runHover hoverInit (evs ++ [HoverEvent.enter])).pending = [] ∧
    stepHover (runHover hoverInit (evs ++ [HoverEvent.enter])) (HoverEvent.fire id) =
      runHover hoverInit (evs ++ [HoverEvent.enter]) := by
  have hinv : HoverInv (runHover hoverInit evs) :=
    hoverInv_run evs hoverInit (Or.inl rfl)
  have happ : runHover hoverInit (evs ++ [HoverEvent.enter]) =
      stepHover (runHover hoverInit evs) HoverEvent.enter := by
    simp [runHover, List.foldl_append]
  have hpe : (runHover hoverInit (evs ++ [HoverEvent.enter])).pending = [] := by
    rw [happ]
    exact clearStoredTimeout_pending _ hinv
  refine ⟨?_, hpe, ?_⟩
  · rcases hinv with h | ⟨h, hht, hp⟩
    · simp [h]
    · simp [hp]
  · simp [stepHover, hpe]

/-- A marked element is untouched by the binding step. -/
theorem bindElem_of_marked (sel : String) (e : Elem) (h : e.marked = true) :
    bindElem sel e = e := by
  unfold bindElem
  split <;> simp [h]

/-- A marked element is untouched by a whole selector scan. -/
theorem foldl_bindElem_of_marked (l : List String) (e : Elem) (h : e.marked = true) :
    l.foldl (fun e sel => bindElem sel e) e = e := by
  induction l with
  | nil => rfl
  | cons a l ih => rw [List.foldl_cons, bindElem_of_marked a e h]; exact ih

/-- Characterization of a selector scan over an unmarked element: nothing
happens when no selector of the list matches; otherwise the element is
marked and exactly one listener pair is attached, for the first matching
selector of the list. -/
theorem foldl_bindElem_of_unmarked (l : List String) (e : Elem) (h : e.marked = false) :
    l.foldl (fun e sel => bindElem sel e) e =
      match l.find? (fun sel => e.sels.contains sel) with
      | none => e
      | some sel => { e with marked := true, bound := e.bound ++ [sel] } := by
  induction l with
  | nil => rfl
  | cons a l ih =>
      by_cases ha : e.sels.contains a = true
      · have ha' : a ∈ e.sels := by simpa using ha
        have hb : bindElem a e = { e with marked := true, bound := e.bound ++ [a] } := by
          simp [bindElem, ha', h]
        rw [List.foldl_cons, hb, foldl_bindElem_of_marked l _ rfl, List.find?_cons_of_pos _ ha]
      · have ha' : a ∉ e.sels := by simpa using ha
        have hb : bindElem a e = e := by
          simp [bindElem, ha']
        rw [List.foldl_cons, hb, ih,
          List.find?_cons_of_neg _ (by simpa using ha)]

/-- setupElem on an unmarked element: the first registry selector the element
matches (if any) gets the single listener pair. -/
theorem setupElem_of_unmarked (e : Elem) (h : e.marked = false) :
    setupElem e =
      match registrySelectors.find? (fun sel => e.sels.contains sel) with
      | none => e
      | some sel => { e with marked := true, bound := e.bound ++ [sel] } :=
  foldl_bindElem_of_unmarked registrySelectors e h

/-- setupElem is idempotent on every element. -/
theorem setupElem_idem (e : Elem) : setupElem (setupElem e) = setupElem e := by
  cases hm : e.marked
  · rw [setupElem_of_unmarked e hm]
    cases hf : registrySelectors.find? (fun sel => e.sels.contains sel) with
    | none =>
        simp only
        rw [setupElem_of_unmarked e hm, hf]
    | some sel =>
        simp only
        exact foldl_bindElem_of_marked registrySelectors _ rfl
  · have he : setupElem e = e := foldl_bindElem_of_marked registrySelectors e hm
    rw [he, he]

/-- The full-document scan is the elementwise scan mapped over the document. -/
theorem foldl_map_bindElem (l : List String) (doc : List Elem) :
    l.foldl (fun d sel => d.map (bindElem sel)) doc =
      doc.map (fun e => l.foldl (fun e sel => bindElem sel e) e) := by
  induction l generalizing doc with
  | nil => simp
  | cons a l ih =>
      rw [List.foldl_cons, ih, List.map_map]
      rfl

/-- setupHoverDetection acts elementwise as setupElem. -/
theorem setupHoverDetection_eq_map (doc : List Elem) :
    setupHoverDetection doc = doc.map setupElem := by
  unfold setupHoverDetection
  rw [foldl_map_bindElem]
  rfl

/-- Claim C6: the rebinding scan is idempotent on every document state, so
any number of repetitions of the scan (as the 3-second interval performs)
equals a single scan, and a fresh unmarked element ends up with at most one
attached listener pair however many selectors it matches. -/
theorem setupHoverDetection_idempotent :
    (∀ doc : List Elem, setupHoverDetection (setupHoverDetection doc) = setupHoverDetection doc) ∧
    (∀ (doc : List Elem) (n : Nat),
      setupHoverDetection^[n + 1] doc = setupHoverDetection doc) ∧
    (∀ e : Elem, e.marked = false → e.bound = [] → (setupElem e).bound.length ≤ 1) := by
  have hidem : ∀ doc : List Elem,
      setupHoverDetection (setupHoverDetection doc) = setupHoverDetection doc := by
    intro doc
    rw [setupHoverDetection_eq_map, setupHoverDetection_eq_map, List.map_map]
    refine List.map_congr_left ?_
    intro e _
    simp only [Function.comp_apply]
    exact setupElem_idem e
  refine ⟨hidem, ?_, ?_⟩
  · intro doc n
    induction n generalizing doc with
    | zero => rfl
    | succ n ih =>
        rw [Function.iterate_succ_apply, ih (setupHoverDetection doc), hidem doc]
  · intro e hm hb
    rw [setupElem_of_unmarked e hm]
    cases hf : registrySelectors.find? (fun sel => e.sels.contains sel) with
    | none => simp [hb]
    | some sel => simp [hb]

/-- Witness for C6: a fresh element matching one registry selector ends up
with exactly one listener pair, and a repeated scan of a one-element
document changes nothing. -/
theorem setupHoverDetection_idempotent_witness :
    (setupElem ⟨[".btn-primary"], false, []⟩).bound.length ≤ 1 ∧
    setupHoverDetection (setupHoverDetection [⟨[".btn-primary"], false, []⟩]) =
      setupHoverDetection [⟨[".btn-primary"], false, []⟩] :=
  ⟨setupHoverDetection_idempotent.2.2 ⟨[".btn-primary"], false, []⟩ rfl rfl,
   setupHoverDetection_idempotent.1 [⟨[".btn-primary"], false, []⟩]⟩

/-- Claim C9: an unmarked element matching several registry selectors is
bound exactly once, under the first matching selector in registry iteration
order, and a hover-enter on it afterwards applies exactly that selector's
expression and message. -/
theorem multi_selector_binds_first_match (e : Elem) (sel : String) (r : HoverRule)
    (hm : e.marked = false) (hb : e.bound = [])
    (hf : registrySelectors.find? (fun s => e.sels.contains s) = some sel)
    (hr : lookupRule sel = some r) :
    (setupElem e).bound = [sel] ∧
    ∀ st : MascotState,
      hoverEnter (setupElem e) st = changeMascotExpression st r.expression r.message := by
  have hchar := setupElem_of_unmarked e hm
  rw [hf] at hchar
  simp only at hchar
  constructor
  · rw [hchar, hb]
    simp
  · intro st
    rw [hchar]
    simp [hoverEnter, hb, hr]

/-- Witness for C9: a submit button that is also btn-primary is bound under
the submit-button selector, and hovering it gives that rule's happy
expression and message. -/
theorem multi_selector_binds_first_match_witness :
    (setupElem ⟨["button[type=\"submit\"]", ".btn-primary"], false, []⟩).bound =
      ["button[type=\"submit\"]"] ∧
    hoverEnter (setupElem ⟨["button[type=\"submit\"]", ".btn-primary"], false, []⟩)
        initialState =
      changeMascotExpression initialState Expression.happy "Ready? Let's do this! 💪" :=
  ⟨(multi_selector_binds_first_match ⟨["button[type=\"submit\"]", ".btn-primary"], false, []⟩
      "button[type=\"submit\"]" ⟨Expression.happy, "Ready? Let's do this! 💪"⟩
      rfl rfl (by decide) (by decide)).1,
   (multi_selector_binds_first_match ⟨["button[type=\"submit\"]", ".btn-primary"], false, []⟩
      "button[type=\"submit\"]" ⟨Expression.happy, "Ready? Let's do this! 💪"⟩
      rfl rfl (by decide) (by decide)).2 initialState⟩

/-- Claim C7: applying the ocean theme and then re-running initialization
against the resulting persisted storage yields ocean as the saved theme,
sets the root data-theme attribute to ocean, and marks exactly one picker
entry active, namely the one whose data-theme is ocean. -/
theorem theme_roundtrip_ocean (dom : ThemeDom) (st : Storage) :
    ((applyTheme "ocean" dom st).2).theme = some "ocean" ∧
    getSavedTheme (applyTheme "ocean" dom st).2 = "ocean" ∧
    (initThemes (applyTheme "ocean" dom st).2).1.rootDataTheme = some "ocean" ∧
    (initThemes (applyTheme "ocean" dom st).2).2.theme = some "ocean" ∧
    ((initThemes (applyTheme "ocean" dom st).2).1.options.filter
        (fun o => o.active)).length = 1 ∧
    ∀ o ∈ (initThemes (applyTheme "ocean" dom st).2).1.options,
      o.active = true → o.dataTheme = "ocean" := by
  have hst : (applyTheme "ocean" dom st).2 = ⟨some "ocean"⟩ := rfl
  rw [hst]
  refine ⟨rfl, rfl, rfl, rfl, by decide, by decide⟩

/-- For a list of distinct keys, marking each key active exactly when it
equals the applied id leaves one active entry when the id is a key and zero
otherwise. -/
theorem filter_active_length (l : List String) (id : String) (hl : l.Nodup) :
    ((l.map (fun k => ThemeOption.mk k (k == id))).filter (fun o => o.active)).length =
      if l.contains id then 1 else 0 := by
  induction l with
  | nil => simp
  | cons a l ih =>
      rcases List.nodup_cons.mp hl with ⟨ha, hl'⟩
      by_cases hai : a = id
      · subst hai
        have hzero : ∀ k ∈ l, ((k == a) = false) := by
          intro k hk
          have : k ≠ a := fun hka => ha (hka ▸ hk)
          simpa using this
        have : ((l.map (fun k => ThemeOption.mk k (k == a))).filter
            (fun o => o.active)).length = 0 := by
          rw [List.length_eq_zero, List.filter_eq_nil_iff]
          intro o ho
          rcases List.mem_map.mp ho with ⟨k, hk, rfl⟩
          simpa using hzero k hk
        simp [List.filter_cons, this]
      · have hne : (a == id) = false := by simpa using hai
        have hia : ¬(id = a) := fun hq => hai hq.symm
        have hcon : (a :: l).contains id = l.contains id := by
          simp [List.contains_cons, hia]
        rw [hcon]
        simpa [List.filter_cons, hne] using ih hl'

/-- Counterexample to claim C8: after initialization with empty storage,
applying the unknown id neon is persisted and set on the root without
validation, but it leaves zero picker entries carrying the active marker,
not exactly one. -/
theorem applyTheme_unknown_id_zero_active :
    (applyTheme "neon" (initThemes ⟨none⟩).1 (initThemes ⟨none⟩).2).1.rootDataTheme =
      some "neon" ∧
    (applyTheme "neon" (initThemes ⟨none⟩).1 (initThemes ⟨none⟩).2).2.theme = some "neon" ∧
    ((applyTheme "neon" (initThemes ⟨none⟩).1 (initThemes ⟨none⟩).2).1.options.filter
        (fun o => o.active)).length = 0 := by
  refine ⟨rfl, rfl, by decide⟩

/-- Claim C8 as amended: applyTheme accepts any string id without validation,
setting the root attribute and the persisted storage to id; on the
initialized picker it marks active exactly the entries whose data-theme
equals id, which is exactly one entry when id is one of the five catalog
keys and zero entries when id is unknown. -/
theorem applyTheme_lenient_and_active_count (st : Storage) (id : String) :
    (applyTheme id (initThemes st).1 (initThemes st).2).1.rootDataTheme = some id ∧
    (applyTheme id (initThemes st).1 (initThemes st).2).2.theme = some id ∧
    (∀ o ∈ (applyTheme id (initThemes st).1 (initThemes st).2).1.options,
      o.active = (o.dataTheme == id)) ∧
    ((applyTheme id (initThemes st).1 (initThemes st).2).1.options.filter
        (fun o => o.active)).length = if themeKeys.contains id then 1 else 0 := by
  refine ⟨rfl, rfl, ?_, ?_⟩
  · intro o ho
    simp only [applyTheme, List.mem_map] at ho
    rcases ho with ⟨o', ho', rfl⟩
    rfl
  · have hmap : (applyTheme id (initThemes st).1 (initThemes st).2).1.options =
        themeKeys.map (fun k => ThemeOption.mk k (k == id)) := by
      simp only [applyTheme, initThemes, List.map_map]
      rfl
    rw [hmap]
    exact filter_active_length themeKeys id (by decide)

end ResumeChecker
